import Mathlib

/-!
Shallow embedding of the borrowing lifecycle of the
`odoo18_library_management` repository
(`src/models/book.py`, `src/models/member.py`, `src/models/borrowing_record.py`).

Dates are modelled as integers (day numbers), monetary amounts as rationals,
and the ambient `fields.Date.today()` is threaded through each operation as an
explicit `today` parameter.  Fallible operations return `Except String`,
mirroring `ValidationError` / SQL-constraint rejections.  Stored computed
fields (`available_copies`, `current_borrowed`, `days_overdue`) are modelled as
pure functions of the current record set, which is exactly how the source
recomputes them on every dependency change.
-/

namespace LibraryMgmt

/-- Borrowing-record selection field `status` from `borrowing_record.py`. -/
inductive BStatus where
  | borrowed
  | returned
  | overdue
deriving DecidableEq, Repr

/-- Member selection field `member_status` from `member.py`. -/
inductive MStatus where
  | active
  | inactive
  | pending
deriving DecidableEq, Repr

/-- `library.book` (`book.py`); fields not used by any lifecycle rule
(category, image, publisher, ...) are omitted. -/
structure Book where
  id : Nat
  title : String
  author : String
  isbn : String
  totalCopies : Int
deriving DecidableEq, Repr

/-- `library.member` (`member.py`); derived counters are pure functions below. -/
structure Member where
  id : Nat
  sequence : String
  name : String
  email : String
  phone : String
  maxBorrowLimit : Int
  memberStatus : MStatus
deriving DecidableEq, Repr

/-- `library.borrowing.record` (`borrowing_record.py`). -/
structure BorrowingRecord where
  id : Nat
  sequence : String
  memberId : Nat
  bookId : Nat
  borrowDate : Int
  expectedReturnDate : Int
  actualReturnDate : Option Int
  status : BStatus
  daysOverdue : Int
  fineAmount : ℚ
  finePerDay : ℚ
deriving DecidableEq, Repr

/-- Result payload handed to the notification layer
(`params` dict of the `display_notification` actions); the source dict key
for `severity` is `type`. -/
structure Notification where
  title : String
  message : String
  severity : String
deriving DecidableEq, Repr

/-- Window action returned by `action_extend_due_date` on success. -/
structure WindowAction where
  name : String
  res_model : String
  res_id : Nat
  view_mode : String
  target : String
deriving DecidableEq, Repr

/-- Python `'borrowed'.title()` etc., used in the `unlink` error message. -/
def status_title : BStatus → String
  | BStatus.borrowed => "Borrowed"
  | BStatus.returned => "Returned"
  | BStatus.overdue => "Overdue"

/-- Model of Python float formatting `f"{x:.2f}"` on a (nonnegative) amount:
round to whole cents (half up, written as a floor of rationals so that it
evaluates in the kernel) and print with two decimals. -/
def format2f (q : ℚ) : String :=
  let x : ℚ := q * 100
  let cents : Int := Int.fdiv (2 * x.num + (x.den : Int)) (2 * (x.den : Int))
  let whole := cents / 100
  let frac := (cents % 100).natAbs
  toString whole ++ "." ++ (if frac < 10 then "0" ++ toString frac else toString frac)

/-- `Book._compute_available_copies`: number of this book's records with
status borrowed or overdue (`borrowing_record_ids.filtered(...)`). -/
def unavailable_count (book : Book) (recs : List BorrowingRecord) : Nat :=
  (recs.filter (fun r =>
    decide (r.bookId = book.id ∧ (r.status = BStatus.borrowed ∨ r.status = BStatus.overdue)))).length

/-- `Book._compute_available_copies`:
`available_copies = max(0, total_copies - unavailable_count)`. -/
def compute_available_copies (book : Book) (recs : List BorrowingRecord) : Int :=
  max 0 (book.totalCopies - (unavailable_count book recs : Int))

/-- `Member._compute_current_borrowed`:
`len(member.borrowing_ids.filtered(lambda b: b.status == 'borrowed'))`. -/
def compute_current_borrowed (m : Member) (recs : List BorrowingRecord) : Nat :=
  (recs.filter (fun b => decide (b.memberId = m.id ∧ b.status = BStatus.borrowed))).length

/-- `BorrowingRecord.create`'s
`search_count([('member_id','=',vals['member_id']), ('status','=','borrowed')])`. -/
def search_count_borrowed (memberId : Nat) (recs : List BorrowingRecord) : Nat :=
  (recs.filter (fun r => decide (r.memberId = memberId ∧ r.status = BStatus.borrowed))).length

/-- `BorrowingRecord._compute_days_overdue` (stored computed field). -/
def compute_days_overdue (today : Int) (r : BorrowingRecord) : Int :=
  match r.status with
  | BStatus.borrowed =>
      if today > r.expectedReturnDate then today - r.expectedReturnDate else 0
  | BStatus.overdue =>
      if today > r.expectedReturnDate then today - r.expectedReturnDate else 0
  | BStatus.returned =>
      match r.actualReturnDate with
      | some a => if a > r.expectedReturnDate then a - r.expectedReturnDate else 0
      | none => 0

/-- Values passed to `BorrowingRecord.create` (required date fields plus the
per-record fine rate, default 5.0). -/
structure RecordVals where
  borrow_date : Int
  expected_return_date : Int
  fine_per_day : ℚ := 5
deriving DecidableEq, Repr

/-- `BorrowingRecord.create`: limit check against the member's current
committed borrowed count, availability check against the book's derived
`available_copies`, overdue initialisation when `expected_return_date` is
already past, then the `_check_return_date` constraint (which Odoo runs after
the row is inserted and which rolls the insertion back on failure).  The new
record is appended to the committed record set on success. -/
def borrowing_create (today : Int) (recs : List BorrowingRecord)
    (member : Member) (book : Book) (vals : RecordVals)
    (newId : Nat) (newSeq : String) : Except String (List BorrowingRecord) :=
  if ((search_count_borrowed member.id recs : Nat) : Int) ≥ member.maxBorrowLimit then
    Except.error ("Member \"" ++ member.name ++ "\" has reached the borrowing limit of "
      ++ toString member.maxBorrowLimit ++ " books.")
  else if compute_available_copies book recs < 1 then
    Except.error ("Book \"" ++ book.title ++ "\" is not available for borrowing.")
  else
    let st := if vals.expected_return_date < today then BStatus.overdue else BStatus.borrowed
    let r0 : BorrowingRecord :=
      { id := newId
        sequence := newSeq
        memberId := member.id
        bookId := book.id
        borrowDate := vals.borrow_date
        expectedReturnDate := vals.expected_return_date
        actualReturnDate := none
        status := st
        daysOverdue := 0
        fineAmount := 0
        finePerDay := vals.fine_per_day }
    let r1 : BorrowingRecord := { r0 with daysOverdue := compute_days_overdue today r0 }
    if vals.expected_return_date ≤ vals.borrow_date then
      Except.error "Expected return date must be after the borrow date."
    else
      Except.ok (recs ++ [r1])

/-- `BorrowingRecord.unlink`: forbids deleting a record whose book is still
out.  `member_name` / `book_title` are the related fields of the record. -/
def unlink (r : BorrowingRecord) (member_name book_title : String) : Except String Unit :=
  if r.status = BStatus.borrowed ∨ r.status = BStatus.overdue then
    Except.error ("Cannot delete borrowing record \"" ++ r.sequence ++ "\" for \""
      ++ member_name ++ " - " ++ book_title
      ++ "\". The book has not been returned yet (Status: " ++ status_title r.status
      ++ "). Please return the book first before deleting this record.")
  else
    Except.ok ()

/-- `BorrowingRecord.action_return_book`, with `fields.Date.today()` passed as
`today`.  Writing `status`/`actual_return_date` retriggers the stored compute
of `days_overdue`, folded in here. -/
def action_return_book (today : Int) (r : BorrowingRecord) :
    Except String (BorrowingRecord × Notification) :=
  if r.status = BStatus.returned then
    Except.error "This book has already been returned."
  else
    let fine : ℚ :=
      if today > r.expectedReturnDate then
        ((today - r.expectedReturnDate : Int) : ℚ) * r.finePerDay
      else 0
    let r1 : BorrowingRecord :=
      { r with actualReturnDate := some today, status := BStatus.returned, fineAmount := fine }
    let r2 : BorrowingRecord := { r1 with daysOverdue := compute_days_overdue today r1 }
    Except.ok (r2,
      { title := "Book Returned"
        message := "Book returned successfully. Fine: RM " ++ format2f fine
        severity := "success" })

/-- `BorrowingRecord.action_extend_due_date`: only a `borrowed` record may be
extended; on success the method mutates nothing and opens a form window. -/
def action_extend_due_date (r : BorrowingRecord) : Except String WindowAction :=
  if r.status ≠ BStatus.borrowed then
    Except.error "Can only extend due date for borrowed books."
  else
    Except.ok
      { name := "Extend Due Date"
        res_model := "library.borrowing.record"
        res_id := r.id
        view_mode := "form"
        target := "new" }

/-- Selection of phase 1 of `cron_calculate_overdue_fines`:
`status = 'borrowed'` and `expected_return_date < today`. -/
def phase1_sel (today : Int) (r : BorrowingRecord) : Bool :=
  decide (r.status = BStatus.borrowed ∧ r.expectedReturnDate < today)

/-- Phase-1 write of `cron_calculate_overdue_fines`: transition to overdue
and store the recomputed fine and days overdue. -/
def phase1_upd (today : Int) (r : BorrowingRecord) : BorrowingRecord :=
  let d := today - r.expectedReturnDate
  { r with status := BStatus.overdue, fineAmount := (d : ℚ) * r.finePerDay, daysOverdue := d }

/-- Per-record effect of phase 1 of the sweep. -/
def run_phase1 (today : Int) (r : BorrowingRecord) : BorrowingRecord :=
  if phase1_sel today r then phase1_upd today r else r

/-- Selection of phase 2 of `cron_calculate_overdue_fines`:
`status = 'overdue'` and `expected_return_date < today`. -/
def phase2_sel (today : Int) (r : BorrowingRecord) : Bool :=
  decide (r.status = BStatus.overdue ∧ r.expectedReturnDate < today)

/-- Phase-2 dirtiness test: the stored fine or days-overdue differ from the
recomputed values (`record.fine_amount != new_fine_amount or ...`). -/
def phase2_changed (today : Int) (r : BorrowingRecord) : Bool :=
  let d := today - r.expectedReturnDate
  decide (r.fineAmount ≠ (d : ℚ) * r.finePerDay ∨ r.daysOverdue ≠ d)

/-- Phase-2 write: persist the recomputed fine and days overdue. -/
def phase2_upd (today : Int) (r : BorrowingRecord) : BorrowingRecord :=
  let d := today - r.expectedReturnDate
  { r with fineAmount := (d : ℚ) * r.finePerDay, daysOverdue := d }

/-- Per-record effect of phase 2 of the sweep (persists only if changed). -/
def run_phase2 (today : Int) (r : BorrowingRecord) : BorrowingRecord :=
  if phase2_sel today r && phase2_changed today r then phase2_upd today r else r

/-- `BorrowingRecord.cron_calculate_overdue_fines`: phase 1 over the
borrowed-and-past-due records, then phase 2 over the records that are overdue
after phase 1.  Returns the new record set, the number of records written
(the source's `total_updated` counter), and the boolean result `True`
(the pure model raises no exception, so the `except` branch is dead). -/
def cron_calculate_overdue_fines (today : Int) (recs : List BorrowingRecord) :
    List BorrowingRecord × Nat × Bool :=
  let after1 := recs.map (run_phase1 today)
  let n1 := recs.countP (phase1_sel today)
  let after2 := after1.map (run_phase2 today)
  let n2 := after1.countP (fun r => phase2_sel today r && phase2_changed today r)
  (after2, n1 + n2, true)

/-- `BorrowingRecord.update_overdue_records`: the lighter sweep that only
flips borrowed-and-past-due records to overdue. -/
def update_overdue_records (today : Int) (recs : List BorrowingRecord) :
    List BorrowingRecord × Bool :=
  (recs.map (fun r =>
    if r.status = BStatus.borrowed ∧ r.expectedReturnDate < today then
      { r with status := BStatus.overdue } else r), true)

/-- Values passed to `Member.create` (required fields plus the two optional
ones the create override inspects). -/
structure MemberVals where
  name : String
  email : String
  phone : String
  member_status : Option MStatus := none
  max_borrow_limit : Option Int := none
deriving DecidableEq, Repr

/-- `Member.create` value transformation: the borrow limit is overwritten
from `vals['member_status']` only when a status is explicitly passed;
otherwise the field defaults apply (`member_status` defaults to active,
`max_borrow_limit` defaults to 5). -/
def member_create (vals : MemberVals) (newId : Nat) (newSeq : String) : Member :=
  let limit : Int :=
    match vals.member_status with
    | some MStatus.active => 10
    | some MStatus.pending => 5
    | some MStatus.inactive => 5
    | none => vals.max_borrow_limit.getD 5
  { id := newId
    sequence := newSeq
    name := vals.name
    email := vals.email
    phone := vals.phone
    maxBorrowLimit := limit
    memberStatus := vals.member_status.getD MStatus.active }

/-- Message of the `unique_phone` SQL constraint in `Member._sql_constraints`. -/
def sql_unique_phone_msg : String :=
  "Phone number must be unique! This phone number is already registered."

/-- `Member._check_phone_unique` (`@api.constrains('phone')`): rejects when
another member with a different id, the same phone and a non-inactive status
exists; the first match (`limit=1`) is named in the message. -/
def check_phone_unique (existing : List Member) (m : Member) : Option String :=
  if m.phone = "" then none
  else
    match existing.find? (fun o =>
      decide (o.phone = m.phone ∧ o.id ≠ m.id ∧ o.memberStatus ≠ MStatus.inactive)) with
    | some o => some ("Phone number \x27" ++ m.phone ++ "\x27 is already registered to member: "
        ++ o.name ++ " (" ++ o.sequence
        ++ "). Please use a different phone number or contact administrator if this is an error.")
    | none => none

/-- `Member._check_status_change_borrowing_limit`
(`@api.constrains('member_status', 'current_borrowed')`). -/
def check_status_change_borrowing_limit (m : Member) (current_borrowed : Int) : Option String :=
  if m.memberStatus = MStatus.inactive ∧ current_borrowed > 5 then
    some ("Cannot change member \"" ++ m.name ++ "\" to Inactive status. Member currently has "
      ++ toString current_borrowed
      ++ " borrowed books, but Inactive members can only have maximum 5 books. "
      ++ "Please ensure member returns " ++ toString (current_borrowed - 5)
      ++ " books before changing status.")
  else if m.memberStatus = MStatus.pending ∧ current_borrowed > 5 then
    some ("Cannot change member \"" ++ m.name ++ "\" to Pending status. Member currently has "
      ++ toString current_borrowed
      ++ " borrowed books, but Pending members can only have maximum 5 books. "
      ++ "Please ensure member returns " ++ toString (current_borrowed - 5)
      ++ " books before changing status.")
  else none

/-- `Member.create` including the constraints that run before the creation
commits: the Python constraints `_check_phone_unique` and
`_check_status_change_borrowing_limit`, then the database-level
`UNIQUE(phone)` constraint from `_sql_constraints`, which fires on insert
regardless of the conflicting member's status. -/
def member_create_checked (existing : List Member) (recs : List BorrowingRecord)
    (vals : MemberVals) (newId : Nat) (newSeq : String) : Except String Member :=
  let m := member_create vals newId newSeq
  match check_phone_unique existing m with
  | some e => Except.error e
  | none =>
    match check_status_change_borrowing_limit m ((compute_current_borrowed m recs : Nat) : Int) with
    | some e => Except.error e
    | none =>
      if existing.any (fun o => decide (o.phone = m.phone)) then
        Except.error sql_unique_phone_msg
      else Except.ok m

/-- Values passed to `Member.write`. -/
structure MemberWriteVals where
  name : Option String := none
  phone : Option String := none
  member_status : Option MStatus := none
  max_borrow_limit : Option Int := none
deriving DecidableEq, Repr

/-- `Member.write` value transformation: after the ordinary field update,
`max_borrow_limit` is recomputed from the (new) status whenever
`member_status` is among the written values. -/
def member_write (m : Member) (vals : MemberWriteVals) : Member :=
  let m1 : Member :=
    { m with
      name := vals.name.getD m.name
      phone := vals.phone.getD m.phone
      memberStatus := vals.member_status.getD m.memberStatus
      maxBorrowLimit := vals.max_borrow_limit.getD m.maxBorrowLimit }
  if vals.member_status.isSome then
    { m1 with maxBorrowLimit :=
        (match m1.memberStatus with
         | MStatus.active => 10
         | MStatus.inactive => 5
         | MStatus.pending => 5) }
  else m1

/-- `Member.write` including the constraints it can trigger.  A Python
constraint fires only when one of its dependent fields is written; the SQL
`UNIQUE(phone)` index can newly be violated only when the phone column itself
is rewritten.  On any failure the write is rolled back and the member keeps
its previous state. -/
def member_write_checked (existing : List Member) (recs : List BorrowingRecord)
    (m : Member) (vals : MemberWriteVals) : Except String Member :=
  let m1 := member_write m vals
  match (if vals.phone.isSome then check_phone_unique existing m1 else none) with
  | some e => Except.error e
  | none =>
    match (if vals.member_status.isSome then
        check_status_change_borrowing_limit m1 ((compute_current_borrowed m1 recs : Nat) : Int)
      else none) with
    | some e => Except.error e
    | none =>
      if vals.phone.isSome ∧ existing.any (fun o => decide (o.phone = m1.phone ∧ o.id ≠ m1.id)) then
        Except.error sql_unique_phone_msg
      else Except.ok m1

/-! ## Helper lemmas -/

/-- Mapping a function that fixes every image of `g` over `l.map g` is the
identity. -/
theorem map_map_fixed {α : Type _} (f g : α → α) (h : ∀ r, f (g r) = g r)
    (l : List α) : (l.map g).map f = l.map g := by
  induction l with
  | nil => rfl
  | cons a t ih => simp [h, ih]

/-- A predicate that is false on every image of `g` counts zero over
`l.map g`. -/
theorem countP_map_false {α : Type _} (p : α → Bool) (g : α → α)
    (h : ∀ r, p (g r) = false) (l : List α) : (l.map g).countP p = 0 := by
  induction l with
  | nil => rfl
  | cons a t ih => simp [List.countP_cons, h, ih]

/-- `member_write` never changes the member's id. -/
theorem member_write_id (m : Member) (vals : MemberWriteVals) :
    (member_write m vals).id = m.id := by
  unfold member_write
  split <;> rfl

/-- The derived borrowed count is insensitive to `member_write` (records are
untouched and the member keeps its id). -/
theorem member_write_current_borrowed (m : Member) (vals : MemberWriteVals)
    (recs : List BorrowingRecord) :
    compute_current_borrowed (member_write m vals) recs = compute_current_borrowed m recs := by
  unfold compute_current_borrowed
  rw [member_write_id]

/-! ## Claim theorems -/

/-- C3 counterexample: the source never validates `total_copies`, so a book
created with `total_copies = -1` is a reachable state; for it
`available_copies = max(0, -1 - 0) = 0`, which is strictly greater than
`total_copies`, refuting `availableCopies ≤ totalCopies` as stated. -/
theorem available_copies_le_total_fails :
    ¬ (compute_available_copies
        { id := 0, title := "Ghost", author := "Nobody", isbn := "999", totalCopies := -1 } []
      ≤ ({ id := 0, title := "Ghost", author := "Nobody", isbn := "999", totalCopies := -1 } : Book).totalCopies) := by
  decide

/-- C3 (amended): at every state, `available_copies` equals
`max(0, total_copies - count of this book's records with status borrowed or
overdue)`, hence `0 ≤ available_copies` always, and
`available_copies ≤ total_copies` whenever `total_copies` is nonnegative
(the source nowhere enforces `total_copies ≥ 0`). -/
theorem available_copies_derivation (b : Book) (recs : List BorrowingRecord) :
    compute_available_copies b recs
        = max 0 (b.totalCopies -
            ((recs.filter (fun r =>
              decide (r.bookId = b.id ∧ (r.status = BStatus.borrowed ∨ r.status = BStatus.overdue)))).length : Int)) ∧
    0 ≤ compute_available_copies b recs ∧
    (0 ≤ b.totalCopies → compute_available_copies b recs ≤ b.totalCopies) := by
  refine ⟨rfl, le_max_left _ _, fun h => ?_⟩
  unfold compute_available_copies
  have hn : (0 : Int) ≤ (unavailable_count b recs : Int) := Int.ofNat_nonneg _
  omega

/-- Witness for the amended C3 at a concrete book with three copies. -/
theorem available_copies_derivation_witness :
    compute_available_copies
        { id := 1, title := "Dune", author := "Herbert", isbn := "1", totalCopies := 3 } []
        = max 0 (({ id := 1, title := "Dune", author := "Herbert", isbn := "1", totalCopies := 3 } : Book).totalCopies -
            ((([] : List BorrowingRecord).filter (fun r =>
              decide (r.bookId = 1 ∧ (r.status = BStatus.borrowed ∨ r.status = BStatus.overdue)))).length : Int)) ∧
    0 ≤ compute_available_copies
        { id := 1, title := "Dune", author := "Herbert", isbn := "1", totalCopies := 3 } [] ∧
    compute_available_copies
        { id := 1, title := "Dune", author := "Herbert", isbn := "1", totalCopies := 3 } []
      ≤ ({ id := 1, title := "Dune", author := "Herbert", isbn := "1", totalCopies := 3 } : Book).totalCopies :=
  ⟨(available_copies_derivation _ []).1,
   (available_copies_derivation _ []).2.1,
   (available_copies_derivation _ []).2.2 (by decide)⟩

/-- C4: the member's `current_borrowed` equals the count of that member's
records whose status is exactly borrowed; an overdue or returned record does
not contribute to it, while an overdue record of a book does contribute to
that book's unavailable count. -/
theorem current_borrowed_derivation (m : Member) (b : Book)
    (r : BorrowingRecord) (recs : List BorrowingRecord) :
    compute_current_borrowed m recs
        = recs.countP (fun x => decide (x.memberId = m.id ∧ x.status = BStatus.borrowed)) ∧
    (r.status = BStatus.overdue ∨ r.status = BStatus.returned →
      compute_current_borrowed m (r :: recs) = compute_current_borrowed m recs) ∧
    (r.status = BStatus.overdue → r.bookId = b.id →
      unavailable_count b (r :: recs) = unavailable_count b recs + 1) := by
  refine ⟨?_, ?_, ?_⟩
  · simp [compute_current_borrowed, List.countP_eq_length_filter]
  · intro h
    have hs : r.status ≠ BStatus.borrowed := by
      rcases h with h | h <;> simp [h]
    simp [compute_current_borrowed, List.filter_cons, hs]
  · intro h hb
    simp [unavailable_count, List.filter_cons, h, hb]

/-- Witness for C4 at a concrete member and an overdue record of a book. -/
theorem current_borrowed_derivation_witness :
    compute_current_borrowed
        { id := 1, sequence := "M001", name := "Alice", email := "a@example.com", phone := "0111", maxBorrowLimit := 10, memberStatus := MStatus.active }
        [{ id := 9, sequence := "BR009", memberId := 1, bookId := 4, borrowDate := 0, expectedReturnDate := 5, actualReturnDate := none, status := BStatus.overdue, daysOverdue := 2, fineAmount := 10, finePerDay := 5 }]
        = [({ id := 9, sequence := "BR009", memberId := 1, bookId := 4, borrowDate := 0, expectedReturnDate := 5, actualReturnDate := none, status := BStatus.overdue, daysOverdue := 2, fineAmount := 10, finePerDay := 5 } : BorrowingRecord)].countP
            (fun x => decide (x.memberId = 1 ∧ x.status = BStatus.borrowed)) ∧
    compute_current_borrowed
        { id := 1, sequence := "M001", name := "Alice", email := "a@example.com", phone := "0111", maxBorrowLimit := 10, memberStatus := MStatus.active }
        ({ id := 9, sequence := "BR009", memberId := 1, bookId := 4, borrowDate := 0, expectedReturnDate := 5, actualReturnDate := none, status := BStatus.overdue, daysOverdue := 2, fineAmount := 10, finePerDay := 5 } :: [])
        = compute_current_borrowed
            { id := 1, sequence := "M001", name := "Alice", email := "a@example.com", phone := "0111", maxBorrowLimit := 10, memberStatus := MStatus.active } [] ∧
    unavailable_count
        { id := 4, title := "Dune", author := "Herbert", isbn := "4", totalCopies := 2 }
        ({ id := 9, sequence := "BR009", memberId := 1, bookId := 4, borrowDate := 0, expectedReturnDate := 5, actualReturnDate := none, status := BStatus.overdue, daysOverdue := 2, fineAmount := 10, finePerDay := 5 } :: [])
        = unavailable_count
            { id := 4, title := "Dune", author := "Herbert", isbn := "4", totalCopies := 2 } [] + 1 := by
  refine ⟨?_, ?_, ?_⟩
  · exact (current_borrowed_derivation _
      { id := 4, title := "Dune", author := "Herbert", isbn := "4", totalCopies := 2 }
      { id := 9, sequence := "BR009", memberId := 1, bookId := 4, borrowDate := 0, expectedReturnDate := 5, actualReturnDate := none, status := BStatus.overdue, daysOverdue := 2, fineAmount := 10, finePerDay := 5 } _).1
  · exact (current_borrowed_derivation _
      { id := 4, title := "Dune", author := "Herbert", isbn := "4", totalCopies := 2 }
      { id := 9, sequence := "BR009", memberId := 1, bookId := 4, borrowDate := 0, expectedReturnDate := 5, actualReturnDate := none, status := BStatus.overdue, daysOverdue := 2, fineAmount := 10, finePerDay := 5 } []).2.1 (Or.inl rfl)
  · exact (current_borrowed_derivation
      { id := 1, sequence := "M001", name := "Alice", email := "a@example.com", phone := "0111", maxBorrowLimit := 10, memberStatus := MStatus.active } _
      { id := 9, sequence := "BR009", memberId := 1, bookId := 4, borrowDate := 0, expectedReturnDate := 5, actualReturnDate := none, status := BStatus.overdue, daysOverdue := 2, fineAmount := 10, finePerDay := 5 } []).2.2 rfl rfl

/-- C10: `action_extend_due_date` succeeds (returning the extend window and
mutating nothing) exactly when the record's status is borrowed; any overdue or
returned record is rejected with a validation error. -/
theorem extend_due_date_only_borrowed (r : BorrowingRecord) :
    ((action_extend_due_date r = Except.ok
        { name := "Extend Due Date"
          res_model := "library.borrowing.record"
          res_id := r.id
          view_mode := "form"
          target := "new" }) ↔ r.status = BStatus.borrowed) ∧
    (r.status ≠ BStatus.borrowed →
      action_extend_due_date r = Except.error "Can only extend due date for borrowed books.") := by
  unfold action_extend_due_date
  by_cases h : r.status = BStatus.borrowed <;> simp [h]

/-- Witness for C10: a borrowed record is accepted, an overdue one rejected. -/
theorem extend_due_date_only_borrowed_witness :
    action_extend_due_date
        { id := 3, sequence := "BR003", memberId := 1, bookId := 1, borrowDate := 0, expectedReturnDate := 7, actualReturnDate := none, status := BStatus.borrowed, daysOverdue := 0, fineAmount := 0, finePerDay := 5 }
      = Except.ok
        { name := "Extend Due Date"
          res_model := "library.borrowing.record"
          res_id := 3
          view_mode := "form"
          target := "new" } ∧
    action_extend_due_date
        { id := 4, sequence := "BR004", memberId := 1, bookId := 1, borrowDate := 0, expectedReturnDate := 7, actualReturnDate := none, status := BStatus.overdue, daysOverdue := 2, fineAmount := 10, finePerDay := 5 }
      = Except.error "Can only extend due date for borrowed books." :=
  ⟨(extend_due_date_only_borrowed _).1.mpr rfl,
   (extend_due_date_only_borrowed _).2 (by decide)⟩

/-- C9: deleting a record whose status is borrowed or overdue is blocked with
the source's error message (so nothing is deleted), and after the same record
is processed by `action_return_book` the deletion succeeds. -/
theorem unlink_blocked_until_returned (r : BorrowingRecord) (mn bt : String) (R : Int)
    (h : r.status = BStatus.borrowed ∨ r.status = BStatus.overdue) :
    unlink r mn bt = Except.error ("Cannot delete borrowing record \"" ++ r.sequence ++ "\" for \""
        ++ mn ++ " - " ++ bt ++ "\". The book has not been returned yet (Status: "
        ++ status_title r.status ++ "). Please return the book first before deleting this record.") ∧
    (action_return_book R r).map (fun p => unlink p.1 mn bt) = Except.ok (Except.ok ()) := by
  constructor
  · unfold unlink
    rw [if_pos h]
  · have hnr : r.status ≠ BStatus.returned := by
      rcases h with h | h <;> simp [h]
    unfold action_return_book
    rw [if_neg hnr]
    simp [Except.map, unlink]

/-- Witness for C9 at a concrete overdue record. -/
theorem unlink_blocked_until_returned_witness :
    unlink
        { id := 5, sequence := "BR005", memberId := 1, bookId := 1, borrowDate := 0, expectedReturnDate := 7, actualReturnDate := none, status := BStatus.overdue, daysOverdue := 2, fineAmount := 10, finePerDay := 5 }
        "Alice" "Dune"
      = Except.error ("Cannot delete borrowing record \"" ++ "BR005" ++ "\" for \""
        ++ "Alice" ++ " - " ++ "Dune" ++ "\". The book has not been returned yet (Status: "
        ++ status_title BStatus.overdue ++ "). Please return the book first before deleting this record.") ∧
    (action_return_book 9
        { id := 5, sequence := "BR005", memberId := 1, bookId := 1, borrowDate := 0, expectedReturnDate := 7, actualReturnDate := none, status := BStatus.overdue, daysOverdue := 2, fineAmount := 10, finePerDay := 5 }).map
      (fun p => unlink p.1 "Alice" "Dune") = Except.ok (Except.ok ()) :=
  unlink_blocked_until_returned
    { id := 5, sequence := "BR005", memberId := 1, bookId := 1, borrowDate := 0, expectedReturnDate := 7, actualReturnDate := none, status := BStatus.overdue, daysOverdue := 2, fineAmount := 10, finePerDay := 5 }
    "Alice" "Dune" 9 (Or.inr rfl)

/-- C1: for a record that is not yet returned, `action_return_book` on
reference date `R` yields a record with status returned,
`actual_return_date = R`, `days_overdue = max(0, R - expected_return_date)`
and `fine_amount = days_overdue * fine_per_day` (exactly 0 when
`R ≤ expected_return_date`), together with a success notification whose
message carries the two-decimal formatted fine; with
`expected_return_date = D`, `R = D + 3` and `fine_per_day = 5` the fine is 15
over 3 days. -/
theorem action_return_book_spec (R : Int) (r : BorrowingRecord)
    (h : r.status ≠ BStatus.returned) :
    (action_return_book R r).map
        (fun p => (p.1.status, p.1.actualReturnDate, p.1.daysOverdue, p.1.fineAmount))
      = Except.ok (BStatus.returned, some R, max 0 (R - r.expectedReturnDate),
          ((max 0 (R - r.expectedReturnDate) : Int) : ℚ) * r.finePerDay) ∧
    (R ≤ r.expectedReturnDate →
      (action_return_book R r).map (fun p => p.1.fineAmount) = Except.ok 0) ∧
    (action_return_book R r).map (fun p => (p.2.title, p.2.severity, p.2.message))
      = Except.ok ("Book Returned", "success",
          "Book returned successfully. Fine: RM "
            ++ format2f (((max 0 (R - r.expectedReturnDate) : Int) : ℚ) * r.finePerDay)) ∧
    (r.finePerDay = 5 → R = r.expectedReturnDate + 3 →
      (action_return_book R r).map (fun p => (p.1.daysOverdue, p.1.fineAmount))
        = Except.ok (3, (15 : ℚ))) := by
  have hfine : (if R > r.expectedReturnDate then
        ((R - r.expectedReturnDate : Int) : ℚ) * r.finePerDay else 0)
      = ((max 0 (R - r.expectedReturnDate) : Int) : ℚ) * r.finePerDay := by
    by_cases hgt : r.expectedReturnDate < R
    · rw [if_pos hgt, max_eq_right (by omega : (0 : Int) ≤ R - r.expectedReturnDate)]
    · rw [if_neg hgt, max_eq_left (by omega : R - r.expectedReturnDate ≤ 0)]
      simp
  have hdays : (if R > r.expectedReturnDate then R - r.expectedReturnDate else 0)
      = max 0 (R - r.expectedReturnDate) := by
    split <;> omega
  refine ⟨?_, ?_, ?_, ?_⟩
  · unfold action_return_book
    rw [if_neg h]
    simp only [Except.map, compute_days_overdue]
    rw [hfine, hdays]
  · intro hle
    unfold action_return_book
    rw [if_neg h]
    simp [Except.map, if_neg (by omega : ¬ r.expectedReturnDate < R)]
  · unfold action_return_book
    rw [if_neg h]
    simp only [Except.map]
    rw [hfine]
  · intro h5 h3
    subst h3
    unfold action_return_book
    rw [if_neg h]
    have h1 : (r.expectedReturnDate + 3 - r.expectedReturnDate : Int) = 3 := by omega
    simp [Except.map, compute_days_overdue,
      if_pos (by omega : r.expectedReturnDate < r.expectedReturnDate + 3), h1, h5]
    norm_num

/-- Witness for C1: a loan due on day 10, returned on day 13 at rate 5, and a
loan due on day 10 returned on day 9 with zero fine. -/
theorem action_return_book_spec_witness :
    (action_return_book 13
        { id := 1, sequence := "BR001", memberId := 1, bookId := 1, borrowDate := 0, expectedReturnDate := 10, actualReturnDate := none, status := BStatus.borrowed, daysOverdue := 0, fineAmount := 0, finePerDay := 5 }).map
        (fun p => (p.1.daysOverdue, p.1.fineAmount)) = Except.ok (3, (15 : ℚ)) ∧
    (action_return_book 9
        { id := 2, sequence := "BR002", memberId := 1, bookId := 1, borrowDate := 0, expectedReturnDate := 10, actualReturnDate := none, status := BStatus.borrowed, daysOverdue := 0, fineAmount := 0, finePerDay := 5 }).map
        (fun p => p.1.fineAmount) = Except.ok 0 :=
  ⟨(action_return_book_spec 13
      { id := 1, sequence := "BR001", memberId := 1, bookId := 1, borrowDate := 0, expectedReturnDate := 10, actualReturnDate := none, status := BStatus.borrowed, daysOverdue := 0, fineAmount := 0, finePerDay := 5 }
      (by decide)).2.2.2 rfl (by decide),
   (action_return_book_spec 9
      { id := 2, sequence := "BR002", memberId := 1, bookId := 1, borrowDate := 0, expectedReturnDate := 10, actualReturnDate := none, status := BStatus.borrowed, daysOverdue := 0, fineAmount := 0, finePerDay := 5 }
      (by decide)).2.1 (by decide)⟩

/-- C2: `BorrowingRecord.create` rejects the request when the member's
current committed borrowed count (which excludes the record being created) is
not strictly below the member's limit — naming the member and the limit — and,
otherwise, when the book's derived `available_copies` is below 1 — naming the
book; in either case the result is an error, so no record is created and the
existing record set is untouched. -/
theorem borrowing_create_rejections (today : Int) (recs : List BorrowingRecord)
    (member : Member) (book : Book) (vals : RecordVals) (newId : Nat) (newSeq : String)
    (h : ((search_count_borrowed member.id recs : Nat) : Int) ≥ member.maxBorrowLimit
        ∨ compute_available_copies book recs < 1) :
    borrowing_create today recs member book vals newId newSeq
      = Except.error (if ((search_count_borrowed member.id recs : Nat) : Int) ≥ member.maxBorrowLimit
          then "Member \"" ++ member.name ++ "\" has reached the borrowing limit of "
            ++ toString member.maxBorrowLimit ++ " books."
          else "Book \"" ++ book.title ++ "\" is not available for borrowing.") := by
  unfold borrowing_create
  by_cases h1 : ((search_count_borrowed member.id recs : Nat) : Int) ≥ member.maxBorrowLimit
  · rw [if_pos h1, if_pos h1]
  · have h2 : compute_available_copies book recs < 1 := h.resolve_left h1
    rw [if_neg h1, if_pos h2, if_neg h1]

/-- Witness for C2: an empty library record set, a member with limit 10, and a
book with zero total copies — creation fails with the Unavailable message. -/
theorem borrowing_create_rejections_witness :
    borrowing_create 0 []
        { id := 1, sequence := "M001", name := "Alice", email := "a@example.com", phone := "0111", maxBorrowLimit := 10, memberStatus := MStatus.active }
        { id := 2, title := "Rare Book", author := "X", isbn := "2", totalCopies := 0 }
        { borrow_date := 0, expected_return_date := 7 } 1 "BR001"
      = Except.error (if ((search_count_borrowed 1 ([] : List BorrowingRecord) : Nat) : Int) ≥ (10 : Int)
          then "Member \"" ++ "Alice" ++ "\" has reached the borrowing limit of "
            ++ toString (10 : Int) ++ " books."
          else "Book \"" ++ "Rare Book" ++ "\" is not available for borrowing.") :=
  borrowing_create_rejections 0 []
    { id := 1, sequence := "M001", name := "Alice", email := "a@example.com", phone := "0111", maxBorrowLimit := 10, memberStatus := MStatus.active }
    { id := 2, title := "Rare Book", author := "X", isbn := "2", totalCopies := 0 }
    { borrow_date := 0, expected_return_date := 7 } 1 "BR001"
    (Or.inr (by decide))

/-- C6 counterexample: a member created without an explicit `member_status`
takes the field default active, but `Member.create` only overwrites
`max_borrow_limit` when a status is explicitly passed, so the limit stays at
the field default 5 instead of the claimed 10. -/
theorem member_create_default_active_limit_not_ten :
    (member_create { name := "Alice", email := "alice@example.com", phone := "0199" } 1 "M001").memberStatus
        = MStatus.active ∧
    (member_create { name := "Alice", email := "alice@example.com", phone := "0199" } 1 "M001").maxBorrowLimit
        ≠ 10 := by
  constructor
  · rfl
  · decide

/-- C6 (amended): whenever `member_status` is explicitly passed —
to `Member.create` or to `Member.write` — the resulting `max_borrow_limit` is
10 for active and 5 for pending or inactive; a creation passing no status
yields an active member whose limit keeps the field default 5. -/
theorem status_limit_coupling (vals : MemberVals) (newId : Nat) (newSeq : String)
    (m : Member) (w : MemberWriteVals) (s : MStatus) :
    (vals.member_status = some s →
      (member_create vals newId newSeq).memberStatus = s ∧
      (member_create vals newId newSeq).maxBorrowLimit = (if s = MStatus.active then 10 else 5)) ∧
    (w.member_status = some s →
      (member_write m w).memberStatus = s ∧
      (member_write m w).maxBorrowLimit = (if s = MStatus.active then 10 else 5)) ∧
    (vals.member_status = none → vals.max_borrow_limit = none →
      (member_create vals newId newSeq).memberStatus = MStatus.active ∧
      (member_create vals newId newSeq).maxBorrowLimit = 5) := by
  refine ⟨?_, ?_, ?_⟩
  · intro hs
    cases s <;> simp [member_create, hs]
  · intro hs
    cases s <;> simp [member_write, hs]
  · intro hs hl
    simp [member_create, hs, hl]

/-- Witness for the amended C6: explicit active creation gives limit 10,
writing status pending gives limit 5, default creation gives active with 5. -/
theorem status_limit_coupling_witness :
    ((member_create { name := "Bob", email := "b@example.com", phone := "0188", member_status := some MStatus.active } 2 "M002").memberStatus = MStatus.active ∧
      (member_create { name := "Bob", email := "b@example.com", phone := "0188", member_status := some MStatus.active } 2 "M002").maxBorrowLimit
        = (if MStatus.active = MStatus.active then 10 else 5)) ∧
    ((member_write
        { id := 3, sequence := "M003", name := "Cara", email := "c@example.com", phone := "0177", maxBorrowLimit := 10, memberStatus := MStatus.active }
        { member_status := some MStatus.pending }).memberStatus = MStatus.pending ∧
      (member_write
        { id := 3, sequence := "M003", name := "Cara", email := "c@example.com", phone := "0177", maxBorrowLimit := 10, memberStatus := MStatus.active }
        { member_status := some MStatus.pending }).maxBorrowLimit
        = (if MStatus.pending = MStatus.active then 10 else 5)) ∧
    ((member_create { name := "Dan", email := "d@example.com", phone := "0166" } 4 "M004").memberStatus = MStatus.active ∧
      (member_create { name := "Dan", email := "d@example.com", phone := "0166" } 4 "M004").maxBorrowLimit = 5) :=
  ⟨(status_limit_coupling
      { name := "Bob", email := "b@example.com", phone := "0188", member_status := some MStatus.active } 2 "M002"
      { id := 3, sequence := "M003", name := "Cara", email := "c@example.com", phone := "0177", maxBorrowLimit := 10, memberStatus := MStatus.active }
      { member_status := some MStatus.pending } MStatus.active).1 rfl,
   (status_limit_coupling
      { name := "Bob", email := "b@example.com", phone := "0188", member_status := some MStatus.active } 2 "M002"
      { id := 3, sequence := "M003", name := "Cara", email := "c@example.com", phone := "0177", maxBorrowLimit := 10, memberStatus := MStatus.active }
      { member_status := some MStatus.pending } MStatus.pending).2.1 rfl,
   (status_limit_coupling
      { name := "Dan", email := "d@example.com", phone := "0166" } 4 "M004"
      { id := 3, sequence := "M003", name := "Cara", email := "c@example.com", phone := "0177", maxBorrowLimit := 10, memberStatus := MStatus.active }
      { member_status := some MStatus.pending } MStatus.pending).2.2 rfl rfl⟩

/-- C8: the database-level `UNIQUE(phone)` constraint of
`Member._sql_constraints` is global, so creating a member with the phone
number of an existing *inactive* member is rejected with the generic SQL
message even though the Python constraint `_check_phone_unique` — which only
looks at non-inactive members — accepts it, contradicting the claimed
inactive-reuse behaviour. -/
theorem inactive_phone_reuse_rejected :
    member_create_checked
        [{ id := 1, sequence := "M001", name := "Old Member", email := "old@example.com", phone := "0123456789", maxBorrowLimit := 5, memberStatus := MStatus.inactive }]
        []
        { name := "New Member", email := "new@example.com", phone := "0123456789", member_status := some MStatus.active }
        2 "M002"
      = Except.error sql_unique_phone_msg ∧
    check_phone_unique
        [{ id := 1, sequence := "M001", name := "Old Member", email := "old@example.com", phone := "0123456789", maxBorrowLimit := 5, memberStatus := MStatus.inactive }]
        (member_create
          { name := "New Member", email := "new@example.com", phone := "0123456789", member_status := some MStatus.active }
          2 "M002")
      = none := by
  constructor
  · rfl
  · rfl

/-- A write that only sets `member_status` skips both phone checks, leaving
exactly the status-transition constraint. -/
theorem member_write_checked_status_only (existing : List Member)
    (recs : List BorrowingRecord) (m : Member) (st : MStatus) :
    member_write_checked existing recs m { member_status := some st }
      = (match check_status_change_borrowing_limit (member_write m { member_status := some st })
            ((compute_current_borrowed m recs : Nat) : Int) with
         | some e => Except.error e
         | none => Except.ok (member_write m { member_status := some st })) := by
  unfold member_write_checked
  dsimp only
  rw [member_write_current_borrowed]
  simp

/-- A status-only write ends with exactly the written status. -/
theorem member_write_status (m : Member) (st : MStatus) :
    (member_write m { member_status := some st }).memberStatus = st := by
  simp [member_write]

/-- Writing status inactive or pending sets the borrow limit to 5. -/
theorem member_write_limit_nonactive (m : Member) :
    (member_write m { member_status := some MStatus.inactive }).maxBorrowLimit = 5 ∧
    (member_write m { member_status := some MStatus.pending }).maxBorrowLimit = 5 := by
  constructor <;> simp [member_write]

/-- The status-transition constraint fires exactly on `current_borrowed > 5`
for a member whose (new) status is inactive or pending. -/
theorem check_status_limit_isSome_iff (m1 : Member) (cb : Int)
    (h : m1.memberStatus = MStatus.inactive ∨ m1.memberStatus = MStatus.pending) :
    (check_status_change_borrowing_limit m1 cb).isSome = true ↔ 5 < cb := by
  rcases h with h | h <;>
    by_cases h5 : (5 : Int) < cb <;>
      simp [check_status_change_borrowing_limit, h, h5]

/-- The status-transition constraint never fires when `current_borrowed ≤ 5`. -/
theorem check_status_limit_none_of_le (m1 : Member) (cb : Int) (h5 : ¬ 5 < cb) :
    check_status_change_borrowing_limit m1 cb = none := by
  simp [check_status_change_borrowing_limit, h5]

/-- C7: a write setting `member_status` to inactive or to pending is rejected
by `_check_status_change_borrowing_limit` exactly when the member's
`current_borrowed` is strictly greater than 5 (on rejection the write is
rolled back, so the member is unchanged); at `current_borrowed ≤ 5` it
succeeds and `max_borrow_limit` becomes 5. -/
theorem member_status_transition_guard (existing : List Member)
    (recs : List BorrowingRecord) (m : Member) (st : MStatus)
    (hst : st = MStatus.inactive ∨ st = MStatus.pending) :
    ((member_write_checked existing recs m { member_status := some st }).isOk = false
        ↔ 5 < ((compute_current_borrowed m recs : Nat) : Int)) ∧
    (((compute_current_borrowed m recs : Nat) : Int) ≤ 5 →
      member_write_checked existing recs m { member_status := some st }
          = Except.ok (member_write m { member_status := some st }) ∧
      (member_write m { member_status := some st }).maxBorrowLimit = 5) := by
  have hiff := check_status_limit_isSome_iff (member_write m { member_status := some st })
    ((compute_current_borrowed m recs : Nat) : Int)
    (by rw [member_write_status]; exact hst)
  constructor
  · rw [member_write_checked_status_only]
    by_cases h5 : (5 : Int) < ((compute_current_borrowed m recs : Nat) : Int)
    · rcases Option.isSome_iff_exists.mp (hiff.mpr h5) with ⟨e, he⟩
      rw [he]
      simp [Except.isOk, Except.toBool, h5]
    · rw [check_status_limit_none_of_le _ _ h5]
      simp [Except.isOk, Except.toBool, h5]
  · intro hle
    have h5 : ¬ (5 : Int) < ((compute_current_borrowed m recs : Nat) : Int) := not_lt.mpr hle
    refine ⟨?_, ?_⟩
    · rw [member_write_checked_status_only, check_status_limit_none_of_le _ _ h5]
    · rcases hst with h | h <;> subst h
      · exact (member_write_limit_nonactive m).1
      · exact (member_write_limit_nonactive m).2

/-- Witness for C7: a member holding 6 borrowed records cannot go inactive;
one holding 5 can, ending with limit 5. -/
theorem member_status_transition_guard_witness :
    ((member_write_checked []
        ((List.range 6).map (fun i =>
          { id := i, sequence := "BR", memberId := 7, bookId := 1, borrowDate := 0, expectedReturnDate := 10, actualReturnDate := none, status := BStatus.borrowed, daysOverdue := 0, fineAmount := 0, finePerDay := 5 }))
        { id := 7, sequence := "M007", name := "Heavy", email := "h@example.com", phone := "0999", maxBorrowLimit := 10, memberStatus := MStatus.active }
        { member_status := some MStatus.inactive }).isOk = false
      ↔ 5 < ((compute_current_borrowed
          { id := 7, sequence := "M007", name := "Heavy", email := "h@example.com", phone := "0999", maxBorrowLimit := 10, memberStatus := MStatus.active }
          ((List.range 6).map (fun i =>
            { id := i, sequence := "BR", memberId := 7, bookId := 1, borrowDate := 0, expectedReturnDate := 10, actualReturnDate := none, status := BStatus.borrowed, daysOverdue := 0, fineAmount := 0, finePerDay := 5 })) : Nat) : Int)) ∧
    (member_write_checked []
        ((List.range 5).map (fun i =>
          { id := i, sequence := "BR", memberId := 7, bookId := 1, borrowDate := 0, expectedReturnDate := 10, actualReturnDate := none, status := BStatus.borrowed, daysOverdue := 0, fineAmount := 0, finePerDay := 5 }))
        { id := 7, sequence := "M007", name := "Heavy", email := "h@example.com", phone := "0999", maxBorrowLimit := 10, memberStatus := MStatus.active }
        { member_status := some MStatus.inactive }
      = Except.ok (member_write
          { id := 7, sequence := "M007", name := "Heavy", email := "h@example.com", phone := "0999", maxBorrowLimit := 10, memberStatus := MStatus.active }
          { member_status := some MStatus.inactive }) ∧
     (member_write
          { id := 7, sequence := "M007", name := "Heavy", email := "h@example.com", phone := "0999", maxBorrowLimit := 10, memberStatus := MStatus.active }
          { member_status := some MStatus.inactive }).maxBorrowLimit = 5) :=
  ⟨(member_status_transition_guard []
      ((List.range 6).map (fun i =>
        { id := i, sequence := "BR", memberId := 7, bookId := 1, borrowDate := 0, expectedReturnDate := 10, actualReturnDate := none, status := BStatus.borrowed, daysOverdue := 0, fineAmount := 0, finePerDay := 5 }))
      { id := 7, sequence := "M007", name := "Heavy", email := "h@example.com", phone := "0999", maxBorrowLimit := 10, memberStatus := MStatus.active }
      MStatus.inactive (Or.inl rfl)).1,
   (member_status_transition_guard []
      ((List.range 5).map (fun i =>
        { id := i, sequence := "BR", memberId := 7, bookId := 1, borrowDate := 0, expectedReturnDate := 10, actualReturnDate := none, status := BStatus.borrowed, daysOverdue := 0, fineAmount := 0, finePerDay := 5 }))
      { id := 7, sequence := "M007", name := "Heavy", email := "h@example.com", phone := "0999", maxBorrowLimit := 10, memberStatus := MStatus.active }
      MStatus.inactive (Or.inl rfl)).2 (by decide)⟩

/-- Phase 1 leaves a record alone when its selection predicate fails. -/
theorem run_phase1_id (today : Int) (x : BorrowingRecord)
    (h : phase1_sel today x = false) : run_phase1 today x = x := by
  unfold run_phase1
  rw [if_neg (by simp [h])]

/-- Phase 2 leaves a record alone when it is unselected or unchanged. -/
theorem run_phase2_id (today : Int) (x : BorrowingRecord)
    (h : (phase2_sel today x && phase2_changed today x) = false) :
    run_phase2 today x = x := by
  unfold run_phase2
  rw [if_neg (by simp [h])]

/-- After one pass of the fine sweep a record is neither selected by phase 1
nor dirty for phase 2. -/
theorem sweep_record_fixed (today : Int) (r : BorrowingRecord) :
    phase1_sel today (run_phase2 today (run_phase1 today r)) = false ∧
    (phase2_sel today (run_phase2 today (run_phase1 today r)) &&
      phase2_changed today (run_phase2 today (run_phase1 today r))) = false := by
  unfold run_phase1 run_phase2
  by_cases hb : phase1_sel today r = true
  · have h2 : phase2_changed today (phase1_upd today r) = false := by
      simp [phase2_changed, phase1_upd]
    have hcond : (phase2_sel today (phase1_upd today r) &&
        phase2_changed today (phase1_upd today r)) = false := by
      rw [h2, Bool.and_false]
    rw [if_pos hb, if_neg (by simp [hcond])]
    exact ⟨by simp [phase1_sel, phase1_upd], hcond⟩
  · have hb' : phase1_sel today r = false := by simpa using hb
    rw [if_neg hb]
    by_cases hc : (phase2_sel today r && phase2_changed today r) = true
    · have hc' := hc
      simp only [Bool.and_eq_true] at hc'
      have hov : r.status = BStatus.overdue := by
        have hsel2 := hc'.1
        simp [phase2_sel] at hsel2
        exact hsel2.1
      have h2 : phase2_changed today (phase2_upd today r) = false := by
        simp [phase2_changed, phase2_upd]
      rw [if_pos hc]
      refine ⟨by simp [phase1_sel, phase2_upd, hov], ?_⟩
      rw [h2, Bool.and_false]
    · have hc' : (phase2_sel today r && phase2_changed today r) = false := by simpa using hc
      rw [if_neg hc]
      exact ⟨hb', hc'⟩

/-- C5: running `cron_calculate_overdue_fines` a second time on the state
produced by a first run with the same reference date returns that state
unchanged, performs zero record writes (`total_updated = 0`, i.e. no record
is transitioned and no already-correct fine or days-overdue value is
rewritten), and returns `True`. -/
theorem cron_fine_sweep_idempotent (today : Int) (recs : List BorrowingRecord) :
    cron_calculate_overdue_fines today (cron_calculate_overdue_fines today recs).1
      = ((cron_calculate_overdue_fines today recs).1, 0, true) := by
  unfold cron_calculate_overdue_fines
  dsimp only
  have hfix := sweep_record_fixed today
  set L := (recs.map (run_phase1 today)).map (run_phase2 today) with hL
  have hLfused : L = recs.map (run_phase2 today ∘ run_phase1 today) := by
    rw [hL, List.map_map]
  have hmap1 : L.map (run_phase1 today) = L := by
    rw [hLfused]
    exact map_map_fixed _ _ (fun x => run_phase1_id today _ (hfix x).1) recs
  have hmap2 : L.map (run_phase2 today) = L := by
    rw [hLfused]
    exact map_map_fixed _ _ (fun x => run_phase2_id today _ (hfix x).2) recs
  have hcnt1 : L.countP (phase1_sel today) = 0 := by
    rw [hLfused]
    exact countP_map_false _ _ (fun x => (hfix x).1) recs
  have hcnt2 : L.countP (fun r => phase2_sel today r && phase2_changed today r) = 0 := by
    rw [hLfused]
    exact countP_map_false _ _ (fun x => (hfix x).2) recs
  rw [hmap1, hmap2, hcnt1, hcnt2]

end LibraryMgmt
